import Mathlib

set_option maxRecDepth 100000

/-!
Verification of the tiered local persistence layer of the productivity suite:
the `StorageManager` backend selector, the SQL backup codec (export/import),
and the quota reporting of `IndexedDBManager`, shallowly embedded in Lean.

JS strings are modelled as `String`, JS numbers in the quota math as `ℚ`
(exact rationals in place of IEEE doubles; the operations involved are a
single division and multiplication), the in-memory SQLite image of sql.js as
a list of tables with their rows, and the asynchronous methods as pure state
transformers over an explicit environment describing the runtime's
capabilities.  Fallible operations return `Except`/`Option`.
-/

namespace Productivity

deriving instance DecidableEq for Except

/-! ## SQL values and the database image

The embedded engine (sql.js) is an external dependency; its image is modelled
as a list of named tables holding rows of values.  The three value shapes the
codec emits are NULL, strings and integers. -/

/-- A SQL value as stored in a row: NULL, text, or an integer. -/
inductive SqlValue
| null
| str (s : String)
| int (n : Int)
deriving DecidableEq

/-- One table of the relational image: its name, its creation statement (the
`sql` column of `sqlite_master`), its column names (in the source obtained as
`Object.keys(rows[0])`; every row of a table shares the schema's columns),
and its rows. -/
structure Table where
  name : String
  createSql : String
  columns : List String
  rows : List (List SqlValue)
deriving DecidableEq

/-- The in-memory database image owned by the relational engine adapter. -/
abbrev DBImage := List Table

/-- The single-quote character, `'` (code point 39). -/
def sqc : Char := Char.ofNat 39

/-! ### JS string primitives

The JavaScript string operations the codec relies on (`split`, `trim`,
`startsWith`, `join`) are embedded as structurally recursive functions over
the character list of the string, so that every theorem below can be settled
by evaluation inside the kernel. -/

/-- Does `cs` start with the pattern `pat`?  Embeds `String.prototype.startsWith`. -/
def listStartsWith : List Char → List Char → Bool
| [], _ => true
| _ :: _, [] => false
| p :: ps, c :: cs => p = c && listStartsWith ps cs

/-- Worker for `jsSplit`: splits `cs` at every occurrence of the (nonempty)
pattern `pat`, accumulating the current fragment in reverse in `acc`.  The
fuel is an upper bound on the number of characters consumed; each step
consumes at least one. -/
def splitOnListAux (pat : List Char) : Nat → List Char → List Char → List (List Char)
| _, acc, [] => [acc.reverse]
| 0, acc, cs => [acc.reverse ++ cs]
| fuel + 1, acc, c :: cs =>
  if listStartsWith pat (c :: cs) then
    acc.reverse :: splitOnListAux pat fuel [] ((c :: cs).drop pat.length)
  else splitOnListAux pat fuel (c :: acc) cs

/-- Embeds `String.prototype.split(sep)` for a nonempty separator: the list of
fragments between occurrences of `sep`, in order. -/
def jsSplit (sep : String) (s : String) : List String :=
(splitOnListAux sep.data (s.data.length + 1) [] s.data).map String.mk

/-- Leading and trailing whitespace removed.  Embeds `String.prototype.trim`
(the inputs at hand are ASCII, where JS and Lean agree on whitespace). -/
def jsTrim (s : String) : String :=
String.mk (((s.data.dropWhile Char.isWhitespace).reverse.dropWhile Char.isWhitespace).reverse)

/-- Embeds `String.prototype.startsWith` at the string level. -/
def jsStartsWith (s pat : String) : Bool :=
listStartsWith pat.data s.data

/-- Embeds `Array.prototype.join(sep)`. -/
def joinSep (sep : String) : List String → String
| [] => ""
| [x] => x
| x :: y :: rest => x ++ sep ++ joinSep sep (y :: rest)

/-- Concatenation of a list of strings. -/
def joinAll : List String → String
| [] => ""
| x :: xs => x ++ joinAll xs

/-- The first `n` characters dropped. -/
def jsDrop (s : String) (n : Nat) : String :=
String.mk (s.data.drop n)

/-- Embeds `val.replace(/'/g, "''")` from `StorageManager.exportData`:
every single quote is doubled. -/
def escQuotes : List Char → List Char
| [] => []
| c :: cs => if c = sqc then sqc :: sqc :: escQuotes cs else c :: escQuotes cs

/-- Embeds the value rendering of `StorageManager.exportData` (lines 365-370):
`null` becomes `NULL`, a string becomes a single-quoted literal with inner
quotes doubled, a number is emitted verbatim. -/
def valueToSql : SqlValue → String
| .null => "NULL"
| .str s => String.mk (sqc :: (escQuotes s.data ++ [sqc]))
| .int n => toString n

/-! ## Modelled external engine: reading back the emitted statements

sql.js itself is not part of this repository; the fragments below model, at
the interface boundary, how the engine parses and executes exactly the
statement shapes the backup codec emits (literal-valued INSERTs and simple
`SELECT * FROM` reads).  Statement shapes outside that grammar are rejected,
matching the engine raising a SQL error. -/

/-- Reads the body of a single-quoted SQL literal: a doubled quote denotes one
quote, a lone quote terminates the literal.  Returns the decoded content and
the input remaining after the closing quote. -/
def readQuotedAux : List Char → Option (List Char × List Char)
| [] => none
| [c] => if c = sqc then some ([], []) else none
| c :: c2 :: rest =>
  if c = sqc then
    if c2 = sqc then
      match readQuotedAux rest with
      | some (s, r) => some (sqc :: s, r)
      | none => none
    else some ([], c2 :: rest)
  else
    match readQuotedAux (c2 :: rest) with
    | some (s, r) => some (c :: s, r)
    | none => none

/-- Reads a complete single-quoted SQL string literal (opening quote, body,
closing quote, nothing after). -/
def readLiteral (cs : List Char) : Option (List Char) :=
match cs with
| c :: rest =>
  if c = sqc then
    match readQuotedAux rest with
    | some (s, []) => some s
    | _ => none
  else none
| [] => none

/-- Decimal digits to a natural number. -/
def digitsToNat (ds : List Char) : Nat :=
ds.foldl (fun acc c => acc * 10 + (c.toNat - 48)) 0

/-- Parses one SQL value: a quoted string, `NULL`, or a (possibly negative)
integer literal.  Returns the value and the remaining input. -/
def parseVal (cs : List Char) : Option (SqlValue × List Char) :=
match cs with
| [] => none
| c :: rest =>
  if c = sqc then
    match readQuotedAux rest with
    | some (content, r) => some (.str (String.mk content), r)
    | none => none
  else if c = 'N' then
    if listStartsWith ['U', 'L', 'L'] rest then some (.null, rest.drop 3) else none
  else if c = '-' then
    match rest.span Char.isDigit with
    | ([], _) => none
    | (ds, r) => some (.int (-(digitsToNat ds : Int)), r)
  else
    match cs.span Char.isDigit with
    | ([], _) => none
    | (ds, r) => some (.int ((digitsToNat ds : Int)), r)

/-- Parses the comma-separated value list of an INSERT up to the closing
parenthesis that ends the statement.  Fuelled to make termination evident. -/
def parseVals : Nat → List Char → Option (List SqlValue)
| 0, _ => none
| fuel + 1, cs =>
  match parseVal (cs.dropWhile (· = ' ')) with
  | none => none
  | some (v, rest) =>
    match rest.dropWhile (· = ' ') with
    | [] => none
    | c :: rest2 =>
      if c = ',' then
        match parseVals fuel rest2 with
        | some vs => some (v :: vs)
        | none => none
      else if c = ')' then
        if rest2 = [] then some [v] else none
      else none

/-- Parses an `INSERT INTO t (c1, c2) VALUES (v1, v2)` statement of the exact
shape the codec emits, yielding table name, column list and values. -/
def parseInsert (cmd : String) : Option (String × List String × List SqlValue) :=
match jsSplit ") VALUES (" cmd with
| [head, vpart] =>
  if jsStartsWith head "INSERT INTO " then
    match jsSplit " (" (jsDrop head 12) with
    | [tname, colsStr] =>
      match parseVals (vpart.data.length + 1) vpart.data with
      | some vals => some (tname, jsSplit ", " colsStr, vals)
      | none => none
    | _ => none
  else none
| _ => none

/-- Appends a row to the named table; fails (SQL error) if the table does not
exist or the column list does not match its schema. -/
def insertRow : DBImage → String → List String → List SqlValue → Option DBImage
| [], _, _, _ => none
| t :: ts, tname, cols, vals =>
  if t.name = tname then
    if t.columns = cols && t.columns.length = vals.length then
      some ({ t with rows := t.rows ++ [vals] } :: ts)
    else none
  else
    match insertRow ts tname cols vals with
    | some ts2 => some (t :: ts2)
    | none => none

/-- Executes one mutating statement against the image: the modelled engine
accepts the INSERT shape emitted by the codec and rejects anything else. -/
def runCommand (db : DBImage) (cmd : String) : Option DBImage :=
match parseInsert cmd with
| some (tname, cols, vals) => insertRow db tname cols vals
| none => none

/-- Executes a `SELECT * FROM t` read against the image, returning the rows of
the named table. -/
def runSelect (db : DBImage) (cmd : String) : Option (List (List SqlValue)) :=
if jsStartsWith cmd "SELECT * FROM " then
  match db.find? (fun t => t.name = jsDrop cmd 14) with
  | some t => some t.rows
  | none => none
else none

/-! ## Backup codec (`StorageManager.exportData`, lines 328-379) -/

/-- Embeds the per-table body of the export loop: the table's creation
statement, then — when the table has rows — a comment header line and one
INSERT per row, each row's values rendered by `valueToSql`, followed by a
blank line. -/
def exportTable (t : Table) : String :=
t.createSql ++ ";\n\n" ++
  (if t.rows.isEmpty then ""
   else
     "-- Data for table " ++ t.name ++ "\n" ++
       joinAll (t.rows.map (fun row =>
         "INSERT INTO " ++ t.name ++ " (" ++ joinSep ", " t.columns ++
           ") VALUES (" ++ joinSep ", " (row.map valueToSql) ++ ");\n")) ++ "\n")

/-- Embeds `StorageManager.exportData`: a two-line comment header (the export
timestamp is an input here, `new Date().toISOString()` in the source),
followed by each user table's creation statement and data.  The
`sqlite_master` query enumerates exactly the user tables of the image, in
declaration order. -/
def exportData (db : DBImage) (exportedAt : String) : String :=
"-- Productivity Suite Data Export\n" ++ "-- Exported: " ++ exportedAt ++ "\n\n" ++
  joinAll (db.map exportTable)

/-! ## Backup restore (`StorageManager.importData`, lines 384-406) -/

/-- Embeds the fragment filter of `importData` line 393:
`sqlDump.split(';').filter(cmd => cmd.trim() && !cmd.trim().startsWith('--'))`. -/
def importFragments (sqlDump : String) : List String :=
(jsSplit ";" sqlDump).filter (fun cmd => (jsTrim cmd != "") && !(jsStartsWith (jsTrim cmd) "--"))

/-- Embeds the execution loop of `importData` lines 395-399: each kept
fragment whose trimmed text is nonempty is executed trimmed.  The result is
the list of statements handed to `execute`, in document order. -/
def importCommands (sqlDump : String) : List String :=
(importFragments sqlDump).filterMap
  (fun command => if jsTrim command = "" then none else some (jsTrim command))

/-- Runs a statement list against the image; the first failing statement
aborts the run (in the source, `execute` rejects and `importData` rethrows),
mirroring the absence of any rollback. -/
def applyCommands : DBImage → List String → Except String DBImage
| db, [] => .ok db
| db, c :: cs =>
  match runCommand db c with
  | some db2 => applyCommands db2 cs
  | none => .error c

/-- `importData` viewed at the level of the database image: execute the
filtered fragments in order (the backend save step of `execute` is modelled
separately in `execute`/`saveDatabase`). -/
def importDataModel (db : DBImage) (sqlDump : String) : Except String DBImage :=
applyCommands db (importCommands sqlDump)

/-! ## Backend selection (`StorageManager.initialize`, lines 83-150) -/

/-- The three storage backends, named as in the source: `indexedDB` is the
key-value (IndexedDB) store, `fileSystem` the user-granted directory, and
`localStorage` the in-memory fallback engine. -/
inductive StorageType
| indexedDB
| localStorage
| fileSystem
deriving DecidableEq

/-- Runtime capabilities of the hosting browser, fixed for a session:
whether `indexedDBManager.initialize()` resolves, whether the File System
Access API is available (`isFileSystemAccessSupported`), whether loading
sql.js (`initSqlJs`) resolves, and whether writes to the granted directory
succeed (`createWritable`/`write`/`close`). -/
structure Env where
  indexedDBOk : Bool
  fsSupported : Bool
  sqlJsOk : Bool
  fileSaveOk : Bool
deriving DecidableEq

/-- The mutable fields of the `StorageManager` singleton: `initialized`,
`currentStorage`, whether `this.sql` and `this.db` are non-null (`db` carries
the image when present), whether `this.dirHandle` is non-null, and the
contents of the `<appName>.db` file in the granted directory. -/
structure SMState where
  initialized : Bool
  currentStorage : StorageType
  sqlLoaded : Bool
  db : Option DBImage
  dirHandle : Bool
  savedFile : Option DBImage
deriving DecidableEq

/-- A fresh session: nothing initialized, the field initializer
`currentStorage = 'localStorage'` (line 56), no directory grant, no saved
file. -/
def freshState : SMState :=
{ initialized := false, currentStorage := .localStorage, sqlLoaded := false,
  db := none, dirHandle := false, savedFile := none }

/-- Embeds the candidate list construction of `initialize` lines 88-90:
the preferred backend, when given, prepended to the fixed fallback order. -/
def storageOrder : Option StorageType → List StorageType
| some p => [p, .indexedDB, .fileSystem, .localStorage]
| none => [.indexedDB, .fileSystem, .localStorage]

/-- Embeds `StorageManager.saveDatabase` (lines 446-460): a no-op without an
image or directory handle; otherwise the image is exported to the directory
file, and any write failure is caught and only logged, leaving the state
unchanged. -/
def saveDatabase (env : Env) (s : SMState) : SMState :=
match s.db with
| none => s
| some image =>
  if s.dirHandle then
    (if env.fileSaveOk then { s with savedFile := some image } else s)
  else s

/-- Embeds `StorageManager.tryInitializeStorage` (lines 118-150).
`.error ()` models the async method rejecting (`indexedDBManager.initialize`
or `initSqlJs` throwing); `.ok (false, _)` models returning `false`.
`tryRestoreDirectoryHandle` (lines 475-484) only logs — it cannot restore a
handle — so the `fileSystem` branch succeeds only when a handle is already
held; `initializeSQLiteFromFile` (lines 425-444) loads the saved file when
present and otherwise creates an empty image and saves it. -/
def tryInitializeStorage (env : Env) (s : SMState) :
    StorageType → Except Unit (Bool × SMState)
| .indexedDB => if env.indexedDBOk then .ok (true, s) else .error ()
| .fileSystem =>
  if !env.fsSupported then .ok (false, s)
  else if s.dirHandle then
    if env.sqlJsOk then
      let s2 := { s with sqlLoaded := true }
      match s2.savedFile with
      | some image => .ok (true, { s2 with db := some image })
      | none => .ok (true, saveDatabase env { s2 with db := some [] })
    else .error ()
  else .ok (false, s)
| .localStorage =>
  if env.sqlJsOk then .ok (true, { s with sqlLoaded := true, db := some [] })
  else .error ()

/-- The candidate loop of `initialize` (lines 92-104): try each backend in
order, record the first success as active, count the attempts; a thrown
attempt is caught and the loop continues. -/
def initLoop (env : Env) : SMState → List StorageType → Option SMState × Nat
| _, [] => (none, 0)
| s, t :: ts =>
  match tryInitializeStorage env s t with
  | .ok (true, s2) => (some { s2 with currentStorage := t, initialized := true }, 1)
  | .ok (false, s2) =>
    let r := initLoop env s2 ts
    (r.1, r.2 + 1)
  | .error _ =>
    let r := initLoop env s ts
    (r.1, r.2 + 1)

/-- Embeds `StorageManager.initialize` (lines 83-113), also returning the
number of backend initialization attempts performed.  Already initialized:
immediate return (zero attempts).  Otherwise run the candidate loop; if every
candidate fails, the outer catch swallows the error and falls back to
`localStorage`, still marking the manager initialized — the method never
rejects, which is why it is a total function here. -/
def initializeStorage (env : Env) (s : SMState) (pref : Option StorageType) :
    SMState × Nat :=
if s.initialized then (s, 0)
else
  let r := initLoop env s (storageOrder pref)
  match r.1 with
  | some s2 => (s2, r.2)
  | none => ({ s with currentStorage := .localStorage, initialized := true }, r.2)

/-- Embeds `StorageManager.getStorageType` (lines 184-186). -/
def getStorageType (s : SMState) : StorageType :=
s.currentStorage

/-- Embeds `StorageManager.ensureInitialized` (lines 410-414). -/
def ensureInitialized (env : Env) (s : SMState) : SMState :=
if s.initialized then s else (initializeStorage env s none).1

/-- Error surface of `query`/`execute`: the guard `throw new
Error('Database not initialized')`, or the engine rejecting the statement. -/
inductive SqlError
| notInitialized
| sqlFailure (cmd : String)
deriving DecidableEq

/-- Embeds `StorageManager.execute` (lines 290-314): ensure initialization,
fail if `this.db` is null, run the statement on the image, and — when the
directory backend is active — auto-save (whose own failures are swallowed by
`saveDatabase`). -/
def execute (env : Env) (s : SMState) (cmd : String) : Except SqlError SMState :=
let s1 := ensureInitialized env s
match s1.db with
| none => .error .notInitialized
| some image =>
  match runCommand image cmd with
  | none => .error (.sqlFailure cmd)
  | some image2 =>
    let s2 := { s1 with db := some image2 }
    .ok (if s2.currentStorage = .fileSystem then saveDatabase env s2 else s2)

/-- Embeds `StorageManager.query` (lines 257-285): ensure initialization,
fail if `this.db` is null, read the rows, auto-save under the directory
backend. -/
def query (env : Env) (s : SMState) (cmd : String) :
    Except SqlError (SMState × List (List SqlValue)) :=
let s1 := ensureInitialized env s
match s1.db with
| none => .error .notInitialized
| some image =>
  match runSelect image cmd with
  | none => .error (.sqlFailure cmd)
  | some rows =>
    .ok (if s1.currentStorage = .fileSystem then saveDatabase env s1 else s1, rows)

/-- Embeds `StorageManager.initializeAppTables` (lines 319-323): ensure
initialization, then execute the schema statement. -/
def initializeAppTables (env : Env) (s : SMState) (appName schema : String) :
    Except SqlError SMState :=
execute env (ensureInitialized env s) schema

/-! ## Quota reporting (`IndexedDBManager.getStorageQuota`, lines 184-207) -/

/-- The browser's `navigator.storage.estimate()` result; fields may be
absent (`estimate.quota || 0` in the source).  JS numbers are modelled as
exact rationals. -/
structure StorageEstimate where
  quota : Option ℚ
  usage : Option ℚ

/-- The `StorageQuota` interface of `IndexedDBManager.ts`. -/
structure StorageQuota where
  quota : ℚ
  usage : ℚ
  available : ℚ
  percentage : ℚ
deriving DecidableEq

/-- Embeds `IndexedDBManager.getStorageQuota`: with the storage-estimate
capability present, `available = quota - usage` and
`percentage = usage / quota * 100` when `quota > 0`; without the capability,
all four fields are zero. -/
def getStorageQuota : Option StorageEstimate → StorageQuota
| some est =>
  let quota := est.quota.getD 0
  let usage := est.usage.getD 0
  { quota := quota, usage := usage, available := quota - usage,
    percentage := if quota > 0 then usage / quota * 100 else 0 }
| none => { quota := 0, usage := 0, available := 0, percentage := 0 }

/-- The quota field of `StorageManager.getStorageInfo` (lines 207-210): under
the `indexedDB` backend the info carries `indexedDBManager.getStorageQuota()`;
the other backends report no quota snapshot. -/
def getStorageInfoQuota (s : SMState) (est : Option StorageEstimate) :
    Option StorageQuota :=
if s.currentStorage = .indexedDB then some (getStorageQuota est) else none

/-! ## Concrete fixtures used by the theorems below -/

/-- The single-quote character as a one-character string. -/
def sq : String := String.mk [sqc]

/-- A two-row todos table, the smallest dataset on which the export/import
round trip misbehaves. -/
def todosTable : Table :=
{ name := "todos", createSql := "CREATE TABLE todos (id INTEGER, txt TEXT)",
  columns := ["id", "txt"], rows := [[.int 1, .str "a"], [.int 2, .str "b"]] }

/-- A database image with one table holding two rows. -/
def db0 : DBImage := [todosTable]

/-- `db0` with its second row duplicated — the actual outcome of the round
trip on `db0`. -/
def db0dup : DBImage :=
[{ todosTable with rows := [[.int 1, .str "a"], [.int 2, .str "b"], [.int 2, .str "b"]] }]

/-- A database image with one table holding a single row. -/
def db1 : DBImage := [{ todosTable with rows := [[.int 1, .str "a"]] }]

/-- A one-row table named tA, first table of the two-table fixture. -/
def tableA : Table :=
{ name := "tA", createSql := "CREATE TABLE tA (id INTEGER)", columns := ["id"], rows := [[.int 1]] }

/-- A one-row table named tB, second table of the two-table fixture. -/
def tableB : Table :=
{ name := "tB", createSql := "CREATE TABLE tB (id INTEGER)", columns := ["id"], rows := [[.int 2]] }

/-- A database image with two tables of one row each: the smallest dataset on
which the round trip re-executes a later table's creation statement. -/
def dbMulti : DBImage := [tableA, tableB]

/-- The name O'Brien. -/
def obName : String := "O" ++ sq ++ "Brien"

/-- A one-column table holding a NULL row and a row whose text contains a
single quote. -/
def peopleTable : Table :=
{ name := "people", createSql := "CREATE TABLE people (nm TEXT)",
  columns := ["nm"], rows := [[.null], [.str obName]] }

/-- A runtime where every storage capability works. -/
def envAllOk : Env :=
{ indexedDBOk := true, fsSupported := true, sqlJsOk := true, fileSaveOk := true }

/-- A runtime where every storage capability fails. -/
def envAllFail : Env :=
{ indexedDBOk := false, fsSupported := false, sqlJsOk := false, fileSaveOk := false }

/-- A runtime with the directory API available but directory writes failing. -/
def envSaveFail : Env :=
{ indexedDBOk := false, fsSupported := true, sqlJsOk := true, fileSaveOk := false }

/-- The todo schema statement handed to `initializeAppTables` (shape as in
`TodoStorage.getSchema`). -/
def todoSchemaSql : String :=
"CREATE TABLE IF NOT EXISTS todos (id INTEGER PRIMARY KEY AUTOINCREMENT, txt TEXT NOT NULL, completed BOOLEAN, created_at TEXT NOT NULL)"

/-- A dump whose single fragment is an SQL statement preceded by a comment
line. -/
def c3Dump : String := "-- note\nINSERT INTO todos (id) VALUES (1);"

/-- The storage estimate of the quota example: 2 GB quota, 0.5 GB used. -/
def estC9 : StorageEstimate := { quota := some 2000000000, usage := some 500000000 }

/-- A manager state with the key-value backend active. -/
def smIndexed : SMState :=
{ freshState with currentStorage := .indexedDB, initialized := true }

/-- An empty one-column todos table. -/
def tableEmptyTodos : Table :=
{ name := "todos", createSql := "CREATE TABLE todos (id INTEGER)", columns := ["id"], rows := [] }

/-- A manager state with the directory backend active and a granted handle. -/
def smFS : SMState :=
{ initialized := true, currentStorage := .fileSystem, sqlLoaded := true,
  db := some [tableEmptyTodos], dirHandle := true, savedFile := some [tableEmptyTodos] }

/-! ## Supporting lemmas -/

theorem initLoop_some_initialized (env : Env) (l : List StorageType) :
    ∀ (s s2 : SMState), (initLoop env s l).1 = some s2 → s2.initialized = true := by
  induction l with
  | nil =>
    intro s s2 h
    simp [initLoop] at h
  | cons t ts ih =>
    intro s s2 h
    rcases htry : tryInitializeStorage env s t with u | ⟨b, s3⟩
    · simp only [initLoop, htry] at h
      exact ih s s2 h
    · cases b
      · simp only [initLoop, htry] at h
        exact ih s3 s2 h
      · simp only [initLoop, htry, Option.some.injEq] at h
        rw [← h]

theorem initializeStorage_initialized (env : Env) (s : SMState) (pref : Option StorageType) :
    (initializeStorage env s pref).1.initialized = true := by
  by_cases h : s.initialized
  · simp [initializeStorage, h]
  · cases hloop : (initLoop env s (storageOrder pref)).1 with
    | some s2 =>
      have h2 := initLoop_some_initialized env (storageOrder pref) s s2 hloop
      simp [initializeStorage, h, hloop, h2]
    | none => simp [initializeStorage, h, hloop]

theorem initLoop_cons_pos (env : Env) (t : StorageType) (ts : List StorageType) (s : SMState) :
    1 ≤ (initLoop env s (t :: ts)).2 := by
  rcases htry : tryInitializeStorage env s t with u | ⟨b, s2⟩
  · simp [initLoop, htry]
  · cases b <;> simp [initLoop, htry]

theorem readQuotedAux_escQuotes (s : List Char) :
    readQuotedAux (escQuotes s ++ [sqc]) = some (s, []) := by
  induction s with
  | nil => simp [escQuotes, readQuotedAux]
  | cons c cs ih =>
    by_cases hc : c = sqc
    · subst hc
      simp [escQuotes, readQuotedAux, ih]
    · rcases h : escQuotes cs ++ [sqc] with _ | ⟨d, ds⟩
      · simp at h
      · rw [h] at ih
        simp [escQuotes, hc, readQuotedAux, h, ih]

theorem filterMap_trim_eq_map (l : List String) :
    (l.filter (fun c => (jsTrim c != "") && !(jsStartsWith (jsTrim c) "--"))).filterMap
        (fun command => if jsTrim command = "" then none else some (jsTrim command)) =
      (l.filter (fun c => (jsTrim c != "") && !(jsStartsWith (jsTrim c) "--"))).map jsTrim := by
  induction l with
  | nil => rfl
  | cons a l ih =>
    by_cases h : ((jsTrim a != "") && !(jsStartsWith (jsTrim a) "--")) = true
    · have hne : ¬(jsTrim a = "") := by
        intro he
        rw [he] at h
        simp at h
      simp [List.filter_cons, h, List.filterMap_cons, hne, ih]
    · simp [List.filter_cons, h, ih]

/-! ## The claims -/

/-- C1: in a fresh session with the key-value store supported, `initialize()`
selects the key-value backend — but `tryInitializeStorage('indexedDB')`
returns `true` without ever creating the SQL.js database, so `this.db` is
still null and `initializeAppTables`, `execute` and `query` all throw
`Error('Database not initialized')` instead of inserting and returning the
row the scenario expects.  This theorem evaluates the model at the scenario's
input and exhibits the failure. -/
theorem c1_scenario_fails_database_never_created :
    getStorageType (initializeStorage envAllOk freshState none).1 = .indexedDB ∧
    initializeAppTables envAllOk (initializeStorage envAllOk freshState none).1 "todo"
        todoSchemaSql = .error .notInitialized ∧
    execute envAllOk (initializeStorage envAllOk freshState none).1
        "INSERT INTO todos (text, completed, created_at) VALUES (?,?,?)" =
      .error .notInitialized ∧
    query envAllOk (initializeStorage envAllOk freshState none).1 "SELECT * FROM todos" =
      .error .notInitialized := by
  decide

/-- C2 counterexample: on a one-table, two-row dataset the round trip
`importData(exportData())` does not leave the row content equivalent — the
second row is appended again (the creation statement and first-row INSERT sit
in comment-led fragments, which `importData` drops) — and no executed
statement clears a table. -/
theorem c2_roundtrip_counterexample :
    importDataModel db0 (exportData db0 "TS") = .ok db0dup ∧
    db0dup ≠ db0 ∧
    ∀ c ∈ importCommands (exportData db0 "TS"),
      jsStartsWith c "DELETE" = false ∧ jsStartsWith c "DROP" = false := by
  decide

/-- C2 (amended): the round trip does not clear tables.  On the one-table
datasets, comment-led fragments swallow the creation statement and the
first-row INSERT, so a one-row table executes nothing and is unchanged while
a two-row table re-executes only the second row's INSERT, appending it as a
duplicate; on the two-table dataset the second table's creation statement is
not comment-led, survives the filter, and the import rejects at it (the
table already exists); in none of these runs is a DELETE or DROP executed. -/
theorem c2_roundtrip_amended :
    importCommands (exportData db1 "TS") = [] ∧
    importDataModel db1 (exportData db1 "TS") = .ok db1 ∧
    importCommands (exportData db0 "TS") =
      ["INSERT INTO todos (id, txt) VALUES (2, " ++ sq ++ "b" ++ sq ++ ")"] ∧
    importDataModel db0 (exportData db0 "TS") = .ok db0dup ∧
    importCommands (exportData dbMulti "TS") = ["CREATE TABLE tB (id INTEGER)"] ∧
    importDataModel dbMulti (exportData dbMulti "TS") = .error "CREATE TABLE tB (id INTEGER)" ∧
    (∀ c ∈ importCommands (exportData db0 "TS") ++ importCommands (exportData dbMulti "TS"),
      jsStartsWith c "DELETE" = false ∧ jsStartsWith c "DROP" = false) := by
  decide

/-- C3 counterexample: the dump's only statement-bearing fragment is preceded
by a comment line, so its trimmed text starts with `--` and `importData`
executes nothing — contradicting the claim that such a fragment is executed,
never skipped. -/
theorem c3_comment_led_fragment_skipped :
    jsSplit ";" c3Dump = ["-- note\nINSERT INTO todos (id) VALUES (1)", ""] ∧
    importCommands c3Dump = [] := by
  decide

/-- C3 (amended): `importData` splits the document on semicolons and executes,
trimmed and in document order, exactly those fragments whose trimmed text is
nonempty and does not start with `--`; a fragment whose first non-blank
characters open a comment is skipped whole, even when an SQL statement
follows the comment inside it. -/
theorem c3_import_executes_noncomment_fragments (dump : String) :
    importCommands dump =
      ((jsSplit ";" dump).filter
          (fun c => (jsTrim c != "") && !(jsStartsWith (jsTrim c) "--"))).map jsTrim :=
  filterMap_trim_eq_map (jsSplit ";" dump)

/-- C4 counterexample: with the key-value backend passed as preferred, the
candidate list contains it twice — the claim that a preferred backend already
in the fallback order appears only once is false. -/
theorem c4_preferred_duplicated_counterexample :
    storageOrder (some .indexedDB) = [.indexedDB, .indexedDB, .fileSystem, .localStorage] ∧
    (storageOrder (some .indexedDB)).count .indexedDB ≠ 1 := by
  decide

/-- C4 (amended): the candidate list is the preferred backend, when given,
prepended to the entire fixed fallback order `[indexedDB, fileSystem,
localStorage]`; a preferred backend that occurs in the fallback order is not
deduplicated and appears twice. -/
theorem c4_priority_list_not_deduplicated (p : StorageType) :
    storageOrder (some p) = p :: storageOrder none ∧
    storageOrder none = [.indexedDB, .fileSystem, .localStorage] ∧
    (p ∈ storageOrder none → (storageOrder (some p)).count p = 2) := by
  cases p <;> exact ⟨rfl, rfl, fun _ => by decide⟩

theorem c4_priority_list_not_deduplicated_witness :
    storageOrder (some .fileSystem) = .fileSystem :: storageOrder none ∧
    (storageOrder (some .fileSystem)).count .fileSystem = 2 :=
  ⟨(c4_priority_list_not_deduplicated .fileSystem).1,
    (c4_priority_list_not_deduplicated .fileSystem).2.2 (by simp [storageOrder])⟩

/-- C5: when the key-value store's initialization throws and the directory
API is unsupported, `initialize()` completes (the outer catch swallows every
failure, so the method never rejects — it is a total function here), marks
the manager initialized, and `getStorageType()` reports the in-memory
backend (`localStorage`); this holds whether or not sql.js itself loads,
covering the case where every candidate fails. -/
theorem c5_fallback_completes_in_memory (env : Env) (s : SMState)
    (hkv : env.indexedDBOk = false) (hfs : env.fsSupported = false)
    (hinit : s.initialized = false) :
    (initializeStorage env s none).1.initialized = true ∧
    getStorageType (initializeStorage env s none).1 = .localStorage := by
  cases hsql : env.sqlJsOk <;>
    simp [initializeStorage, hinit, storageOrder, initLoop, tryInitializeStorage, hkv, hfs,
      hsql, getStorageType]

theorem c5_fallback_completes_in_memory_witness :
    (initializeStorage envAllFail freshState none).1.initialized = true ∧
    getStorageType (initializeStorage envAllFail freshState none).1 = .localStorage :=
  c5_fallback_completes_in_memory envAllFail freshState rfl rfl rfl

/-- C6: whenever the key-value store's initialization succeeds, the first
candidate of the no-preference priority list succeeds, so `initialize()`
activates it and `getStorageType()` reports `indexedDB` — independently of
the directory API's availability (the environment is otherwise arbitrary). -/
theorem c6_indexedDB_wins_when_available (env : Env) (s : SMState)
    (hkv : env.indexedDBOk = true) (hinit : s.initialized = false) :
    getStorageType (initializeStorage env s none).1 = .indexedDB := by
  simp [initializeStorage, hinit, storageOrder, initLoop, tryInitializeStorage, hkv,
    getStorageType]

theorem c6_indexedDB_wins_when_available_witness :
    getStorageType (initializeStorage envAllOk freshState none).1 = .indexedDB :=
  c6_indexedDB_wins_when_available envAllOk freshState rfl rfl

/-- C7: after any first `initialize()` call the manager is initialized, so a
second call — under any environment and preference — returns the state
unchanged with zero backend initialization attempts; the first call from an
uninitialized state performs at least one attempt, so the selection pass runs
exactly once across the two calls. -/
theorem c7_initialize_idempotent (env env2 : Env) (s : SMState)
    (pref pref2 : Option StorageType) (hinit : s.initialized = false) :
    initializeStorage env2 (initializeStorage env s pref).1 pref2 =
      ((initializeStorage env s pref).1, 0) ∧
    1 ≤ (initializeStorage env s pref).2 := by
  constructor
  · have h := initializeStorage_initialized env s pref
    generalize hs1 : (initializeStorage env s pref).1 = s1 at h ⊢
    simp [initializeStorage, h]
  · have hsnd : (initializeStorage env s pref).2 = (initLoop env s (storageOrder pref)).2 := by
      cases hloop : (initLoop env s (storageOrder pref)).1 <;>
        simp [initializeStorage, hinit, hloop]
    rw [hsnd]
    cases pref <;> simp only [storageOrder] <;> exact initLoop_cons_pos env _ _ s

theorem c7_initialize_idempotent_witness :
    initializeStorage envAllOk (initializeStorage envAllOk freshState none).1 none =
      ((initializeStorage envAllOk freshState none).1, 0) ∧
    1 ≤ (initializeStorage envAllOk freshState none).2 :=
  c7_initialize_idempotent envAllOk envAllOk freshState none none rfl

/-- C8: `exportData` renders a string by doubling each inner single quote and
NULL for null — the export of the table holding O'Brien contains the literal
`'O''Brien'` and a `VALUES (NULL)` statement — reading a quoted literal back
(as the engine does on re-import) restores any escaped string exactly, and
re-importing the produced insertion statement restores the row O'Brien. -/
theorem c8_quote_escaping_roundtrip :
    (∀ s : List Char, readLiteral (sqc :: (escQuotes s ++ [sqc])) = some s) ∧
    valueToSql .null = "NULL" ∧
    importCommands (exportData [peopleTable] "TS") =
      ["INSERT INTO people (nm) VALUES (" ++ sq ++ "O" ++ sq ++ sq ++ "Brien" ++ sq ++ ")"] ∧
    (jsSplit "VALUES (NULL)" (exportData [peopleTable] "TS")).length = 2 ∧
    importDataModel [{ peopleTable with rows := [] }] (exportData [peopleTable] "TS") =
      .ok [{ peopleTable with rows := [[.str obName]] }] := by
  refine ⟨?_, by decide, by decide, by decide, by decide⟩
  intro s
  simp [readLiteral, readQuotedAux_escQuotes s]

/-- C9: with the storage-estimate capability present and a positive quota,
the snapshot satisfies `percentage = usage / quota * 100` and
`available = quota - usage`; on the 2 GB / 0.5 GB example the percentage is
exactly 25; without the capability all four fields are zero; and under the
key-value backend `getStorageInfo` carries exactly this snapshot. -/
theorem c9_quota_math (est : StorageEstimate) (h : 0 < est.quota.getD 0) :
    (getStorageQuota (some est)).percentage =
      (getStorageQuota (some est)).usage / (getStorageQuota (some est)).quota * 100 ∧
    (getStorageQuota (some est)).available =
      (getStorageQuota (some est)).quota - (getStorageQuota (some est)).usage ∧
    (getStorageQuota (some estC9)).percentage = 25 ∧
    getStorageQuota none = { quota := 0, usage := 0, available := 0, percentage := 0 } ∧
    getStorageInfoQuota smIndexed (some est) = some (getStorageQuota (some est)) := by
  refine ⟨?_, ?_, ?_, rfl, ?_⟩
  · simp [getStorageQuota, h]
  · simp [getStorageQuota]
  · norm_num [getStorageQuota, estC9]
  · simp [getStorageInfoQuota, smIndexed, freshState]

theorem c9_quota_math_witness :
    (getStorageQuota (some estC9)).percentage =
      (getStorageQuota (some estC9)).usage / (getStorageQuota (some estC9)).quota * 100 ∧
    (getStorageQuota (some estC9)).available =
      (getStorageQuota (some estC9)).quota - (getStorageQuota (some estC9)).usage ∧
    (getStorageQuota (some estC9)).percentage = 25 :=
  ⟨(c9_quota_math estC9 (by norm_num [estC9])).1,
    (c9_quota_math estC9 (by norm_num [estC9])).2.1,
    (c9_quota_math estC9 (by norm_num [estC9])).2.2.1⟩

/-- C10: with the directory backend active and directory writes failing,
`saveDatabase` swallows the write error, so `execute` still resolves with
the mutation applied to the in-memory image only (the saved file is
untouched), and `query` still resolves with the rows — a durability failure
is never surfaced as a rejection. -/
theorem c10_save_failure_not_propagated (env : Env) (s : SMState) (cmd sel : String)
    (image image2 : DBImage) (rows : List (List SqlValue))
    (hinit : s.initialized = true) (hdb : s.db = some image)
    (hfs : s.currentStorage = .fileSystem) (hsave : env.fileSaveOk = false)
    (hrun : runCommand image cmd = some image2)
    (hsel : runSelect image sel = some rows) :
    execute env s cmd = .ok { s with db := some image2 } ∧
    ({ s with db := some image2 } : SMState).savedFile = s.savedFile ∧
    query env s sel = .ok (s, rows) := by
  refine ⟨?_, rfl, ?_⟩
  · simp [execute, ensureInitialized, hinit, hdb, hrun, hfs, saveDatabase, hsave]
  · simp [query, ensureInitialized, hinit, hdb, hsel, hfs, saveDatabase, hsave]

theorem c10_save_failure_not_propagated_witness :
    execute envSaveFail smFS "INSERT INTO todos (id) VALUES (7)" =
      .ok { smFS with db := some [{ tableEmptyTodos with rows := [[.int 7]] }] } ∧
    ({ smFS with db := some [{ tableEmptyTodos with rows := [[.int 7]] }] } : SMState).savedFile =
      smFS.savedFile ∧
    query envSaveFail smFS "SELECT * FROM todos" = .ok (smFS, []) :=
  c10_save_failure_not_propagated envSaveFail smFS "INSERT INTO todos (id) VALUES (7)"
    "SELECT * FROM todos" [tableEmptyTodos] [{ tableEmptyTodos with rows := [[.int 7]] }] []
    rfl rfl rfl rfl (by decide) (by decide)

end Productivity
